import Mathlib

/-!
Shallow embedding of the content type gating partition scheme
(openedx/features/content_type_gating/partitions.py) and the course
duration limit configuration model
(openedx/features/course_duration_limits/models.py).

External collaborators (feature flags, masquerade lookups, the enrollment
store, the course mode store, the stacked configuration resolver and the
commerce service) are passed in as explicit parameters, so every embedded
operation is a pure function of its inputs. Log side effects are made
observable as a list of emitted log levels. The source is Python 2 code;
where Python 2 semantics matter (truthiness of optional strings, the
ordering that places None below every date) the embedding models them
explicitly.
-/

/-- A user partition group, mirroring Group from xmodule partitions:
a numeric id together with a display name. -/
structure AccessGroup where
  id : Nat
  name : String
deriving DecidableEq

/-- The reserved partition id used by the content gating partition. -/
def CONTENT_GATING_PARTITION_ID : Nat := 51

/-- The limited access group, with id 1 from CONTENT_TYPE_GATE_GROUP_IDS. -/
def LIMITED_ACCESS : AccessGroup := ⟨1, "Limited-access Users"⟩

/-- The full access group, with id 2 from CONTENT_TYPE_GATE_GROUP_IDS. -/
def FULL_ACCESS : AccessGroup := ⟨2, "Full-access Users"⟩

/-- The audit mode slug, CourseMode.AUDIT. -/
def AUDIT : String := "audit"

/-- The verified mode slug, CourseMode.VERIFIED. -/
def VERIFIED : String := "verified"

/-- Modelled from the spec: the course mode store collaborator holds, per
course, a list of modes; a mode carries its slug, an optional sku, and a
minimum price. The price is carried here already in its stringified decimal
form, since the embedded operations only ever use the stringified value. -/
structure CourseMode where
  slug : String
  sku : Option String
  min_price : String
deriving DecidableEq

/-- Modelled from the spec: hasVerifiedMode of the course mode store
collaborator, true when the verified track is among the given modes. -/
def has_verified_mode (modes : List CourseMode) : Bool :=
  modes.any (fun m => m.slug == VERIFIED)

/-- Modelled from the spec: modeForCourse of the course mode store
collaborator, resolving a slug to a Mode or none. -/
def mode_for_course (slug : String) (modes : List CourseMode) : Option CourseMode :=
  modes.find? (fun m => m.slug == slug)

/-- Python truthiness of an optional string: None and the empty string are
falsy, every other string is truthy. -/
def strTruthy : Option String → Bool
  | none => false
  | some s => !(s == "")

/-- Severity of an emitted log entry. -/
inductive LogLevel where
  | warning
  | error
deriving DecidableEq

/-- The masquerade collaborator state for a user in a course:
whether getCourseMasquerade is truthy, whether the user is masquerading as
a specific student, and the group getMasqueradingUserGroup would return. -/
structure MasqueradeState where
  course_masquerade : Bool
  as_specific_student : Bool
  group : Option AccessGroup
deriving DecidableEq

/-- ContentTypeGatingPartitionScheme.get_group_for_user. Inputs stand for
the external queries the source makes: the masquerade state, the
CONTENT_TYPE_GATING_FLAG, the course modes returned by modesForCourse, and
the pair returned by enrollmentModeForUser. The result pairs the returned
group (none when the masquerade branch returns no group) with the list of
log entries emitted. -/
def get_group_for_user (masq : MasqueradeState) (flag : Bool)
    (modes : List CourseMode) (mode_slug : Option String) (is_active : Bool) :
    Option AccessGroup × List LogLevel :=
  if masq.course_masquerade && !masq.as_specific_student then
    (masq.group, [])
  else if !flag then
    (some FULL_ACCESS, [])
  else if !(has_verified_mode modes) then
    (some FULL_ACCESS, [])
  else if strTruthy mode_slug && is_active then
    match mode_for_course (mode_slug.getD "") modes with
    | none => (some FULL_ACCESS, [LogLevel.error])
    | some _ =>
      if mode_slug.getD "" == AUDIT then (some LIMITED_ACCESS, [])
      else (some FULL_ACCESS, [])
  else
    (some LIMITED_ACCESS, [])

/-- The partition value constructed by the content type gating scheme. -/
structure ContentTypeGatingPartition where
  id : Nat
  name : String
  description : String
  groups : List AccessGroup
  parameters : List (String × String)
  active : Bool
deriving DecidableEq

/-- ContentTypeGatingPartitionScheme.create_user_partition: the requested
groups and active flag are accepted but ignored, exactly as in the source,
which always passes the two fixed groups and active as true. -/
def create_user_partition (id : Nat) (name description : String)
    (groups : Option (List AccessGroup)) (parameters : List (String × String))
    (active : Bool) : ContentTypeGatingPartition :=
  ⟨id, name, description, [LIMITED_ACCESS, FULL_ACCESS], parameters, true⟩

/-- Metadata of a partition already present in a course, as exposed by the
course authoring collaborator through course.user_partitions. -/
structure CoursePartitionInfo where
  id : Nat
  name : String
deriving DecidableEq

/-- The helper at the bottom of partitions.py: first partition in the list
with a matching id, or none. -/
def get_partition_from_id (partitions : List CoursePartitionInfo)
    (user_partition_id : Nat) : Option CoursePartitionInfo :=
  partitions.find? (fun p => p.id == user_partition_id)

/-- create_content_gating_partition. The two feature flags and the scheme
registry lookup outcome are inputs; the existing course partitions and the
stringified course id are the course data the source reads. The result
pairs the created partition, if any, with the emitted log entries. -/
def create_content_gating_partition (gating_flag studio_flag scheme_registered : Bool)
    (partitions : List CoursePartitionInfo) (course_id : String) :
    Option ContentTypeGatingPartition × List LogLevel :=
  if !(gating_flag || studio_flag) then
    (none, [])
  else if !scheme_registered then
    (none, [LogLevel.warning])
  else if (partitions.map (fun p => p.id)).contains CONTENT_GATING_PARTITION_ID then
    (none, [LogLevel.warning])
  else
    (some (create_user_partition CONTENT_GATING_PARTITION_ID
      "Feature-based Enrollments"
      "Partition for segmenting users by access to gated content types"
      none [("course_id", course_id)] true), [])

/-- The template context assembled by access_denied_fragment. A fragment is
identified with its context, rendering being delegated to an external
collaborator. The checkout link is an optional string because the source
helper can fall through and return None. -/
structure FragmentContext where
  mobile_app : Bool
  ecommerce_checkout_link : Option String
  min_price : String
deriving DecidableEq

/-- ContentTypeGatingPartition._is_audit_enrollment, applied to the pair
returned by enrollmentModeForUser. -/
def is_audit_enrollment (mode_slug : Option String) (is_active : Bool) : Bool :=
  mode_slug == some AUDIT && is_active

/-- ContentTypeGatingPartition._get_checkout_link. When the commerce
service is enabled for the user and the sku is truthy, it returns the
checkout page url with a falsy url collapsed to the empty string; in every
other case the Python function falls off the end and returns None. -/
def get_checkout_link (ecommerce_enabled : Bool) (sku : Option String)
    (checkout_page_url : Option String) : Option String :=
  if ecommerce_enabled && strTruthy sku then
    some (checkout_page_url.getD "")
  else
    none

/-- ContentTypeGatingPartition.access_denied_fragment. The course modes,
the enrollment pair, the commerce service enablement, the checkout page
url the commerce service would return, and the mobile app check are the
external inputs of the source. -/
def access_denied_fragment (modes : List CourseMode) (mode_slug : Option String)
    (is_active : Bool) (ecommerce_enabled : Bool) (checkout_page_url : Option String)
    (mobile_app : Bool) : Option FragmentContext :=
  match mode_for_course VERIFIED modes with
  | none => none
  | some verified_mode =>
    if !(is_audit_enrollment mode_slug is_active) then none
    else
      some ⟨mobile_app,
            get_checkout_link ecommerce_enabled verified_mode.sku checkout_page_url,
            verified_mode.min_price⟩

/-- The resolved stacked configuration record for course duration limits:
enabled is a nullable boolean, enabled_as_of a nullable date. Dates are
modelled as integers ordered as calendar dates are. -/
structure CourseDurationLimitConfig where
  enabled : Option Bool
  enabled_as_of : Option Int
deriving DecidableEq

/-- The comparison the source applies to enabled_as_of. The source is
Python 2, where None compares below every date, so a null date is at most
any target date. -/
def optDateLe : Option Int → Int → Bool
  | none, _ => true
  | some d, t => decide (d ≤ t)

/-- CourseDurationLimitConfig.enabled_as_of_date: true when the global
flag is on, else the boolean coercion of enabled and enabled_as_of at most
the target date, with a null enabled coerced to false. -/
def enabled_as_of_date (flag : Bool) (config : CourseDurationLimitConfig)
    (target_date : Int) : Bool :=
  if flag then true
  else config.enabled.getD false && optDateLe config.enabled_as_of target_date

/-- CourseDurationLimitConfig.enabled_for_course. The stacked resolver is
replaced by the resolved configuration itself; the ambient current UTC
date is the explicit parameter today, used when target_date is omitted. -/
def enabled_for_course (flag : Bool) (config : CourseDurationLimitConfig)
    (target_date : Option Int) (today : Int) : Bool :=
  if flag then true
  else enabled_as_of_date flag config (target_date.getD today)

/-- An enrollment record: the course it is for and its creation date. -/
structure CourseEnrollment where
  course_id : Nat
  created : Int
deriving DecidableEq

/-- Discriminates the error outcome of an Except valued call, standing for
a raised ValueError. -/
def isValueError : Except String Bool → Bool
  | Except.error _ => true
  | Except.ok _ => false

/-- CourseDurationLimitConfig.enabled_for_enrollment. Users and course
keys are opaque naturals; get_enrollment stands for the enrollment store
lookup and current_config for the stacked configuration resolver. The
defaults taken by getD below are unreachable: when course_key is none the
validation above guarantees enrollment is some, and get_enrollment is
only consulted when user is some. -/
def enabled_for_enrollment (flag : Bool) (enrollment : Option CourseEnrollment)
    (user : Option Nat) (course_key : Option Nat)
    (get_enrollment : Nat → Nat → Option CourseEnrollment)
    (current_config : Nat → CourseDurationLimitConfig) (today : Int) :
    Except String Bool :=
  if flag then Except.ok true
  else if enrollment.isSome && (user.isSome || course_key.isSome) then
    Except.error "Specify enrollment or user/course_key, but not both"
  else if enrollment.isNone && (user.isNone || course_key.isNone) then
    Except.error "Both user and course_key must be specified if no enrollment is provided"
  else if enrollment.isNone && user.isNone && course_key.isNone then
    Except.error "At least one of enrollment or user and course_key must be specified"
  else
    let ck : Nat := course_key.getD ((enrollment.map (fun e => e.course_id)).getD 0)
    let enr : Option CourseEnrollment :=
      match enrollment with
      | some e => some e
      | none => get_enrollment (user.getD 0) ck
    match enr with
    | none => Except.ok (enabled_for_course flag (current_config ck) (some today) today)
    | some e => Except.ok (enabled_as_of_date flag (current_config e.course_id) e.created)

/-- Modelled from the spec words for claim C6: true when the flag is on,
otherwise the value of enabled AND enabled_as_of at most the target date,
with the target date defaulting to today and an unset enabled treated as
false. -/
def enabled_for_course_spec (flag : Bool) (config : CourseDurationLimitConfig)
    (target_date : Option Int) (today : Int) : Bool :=
  if flag then true
  else config.enabled.getD false && optDateLe config.enabled_as_of (target_date.getD today)

/-- Claim C5: when the user is masquerading in the course but not as a
specific student, get_group_for_user returns exactly the group of the
masquerade state, whatever the flag, the course modes and the enrollment
are, and emits no log entry. -/
theorem c5_masquerade_group_returned (masq : MasqueradeState) (flag : Bool)
    (modes : List CourseMode) (mode_slug : Option String) (is_active : Bool)
    (h1 : masq.course_masquerade = true) (h2 : masq.as_specific_student = false) :
    get_group_for_user masq flag modes mode_slug is_active = (masq.group, []) := by
  simp [get_group_for_user, h1, h2]

/-- Witness for claim C5 at a concrete masquerade-as-group state. -/
theorem c5_witness :
    get_group_for_user ⟨true, false, some FULL_ACCESS⟩ false [] none false
      = (some FULL_ACCESS, []) :=
  c5_masquerade_group_returned ⟨true, false, some FULL_ACCESS⟩ false [] none false rfl rfl

/-- Claim C9: for every requested active flag and groups argument,
create_user_partition builds a partition whose active flag is true and
whose groups are exactly LIMITED_ACCESS then FULL_ACCESS. -/
theorem c9_partition_forced_active (id : Nat) (name description : String)
    (groups : Option (List AccessGroup)) (parameters : List (String × String))
    (active : Bool) :
    (create_user_partition id name description groups parameters active).active = true ∧
    (create_user_partition id name description groups parameters active).groups
      = [LIMITED_ACCESS, FULL_ACCESS] :=
  ⟨rfl, rfl⟩

/-- Claim C10: a resolved configuration with enabled true and a null
enabled_as_of makes enabled_as_of_date return true for every target date,
with no error, because the Python 2 ordering puts None below every date. -/
theorem c10_null_enabled_as_of_true (flag : Bool) (config : CourseDurationLimitConfig)
    (target_date : Int)
    (he : config.enabled = some true) (hd : config.enabled_as_of = none) :
    enabled_as_of_date flag config target_date = true := by
  cases flag <;> simp [enabled_as_of_date, he, hd, optDateLe]

/-- Witness for claim C10 at a concrete configuration and date. -/
theorem c10_witness : enabled_as_of_date false ⟨some true, none⟩ 0 = true :=
  c10_null_enabled_as_of_true false ⟨some true, none⟩ 0 rfl rfl

/-- Claim C6: enabled_for_course returns true when the flag is on and
otherwise exactly the boolean value of enabled AND enabled_as_of at most
the target date, with the target defaulting to today and an unset enabled
treated as false, always a definite boolean. -/
theorem c6_enabled_for_course_correct (flag : Bool) (config : CourseDurationLimitConfig)
    (target_date : Option Int) (today : Int) :
    enabled_for_course flag config target_date today =
      enabled_for_course_spec flag config target_date today := by
  cases flag <;> rfl

/-- Counterexample to claim C1 as stated: flag on, no masquerade, the
course has a verified mode but no audit mode, and the user has an active
audit enrollment; get_group_for_user grants FULL_ACCESS through the
unknown mode branch, not LIMITED_ACCESS. -/
theorem c1_counterexample :
    (get_group_for_user ⟨false, false, none⟩ true
        [⟨"verified", some "test-sku", "100.00"⟩] (some "audit") true).1
      = some FULL_ACCESS ∧ some FULL_ACCESS ≠ some LIMITED_ACCESS := by
  decide

/-- Claim C1 (amended): with no masquerade in effect, the flag enabled, a
verified mode present and the audit mode itself among the course modes, an
active audit enrollment is placed in LIMITED_ACCESS. -/
theorem c1_audit_gets_limited_access (masq : MasqueradeState) (modes : List CourseMode)
    (hm : masq.course_masquerade = false)
    (hv : has_verified_mode modes = true)
    (ha : (mode_for_course AUDIT modes).isSome = true) :
    get_group_for_user masq true modes (some AUDIT) true = (some LIMITED_ACCESS, []) := by
  obtain ⟨m, hmode⟩ := Option.isSome_iff_exists.mp ha
  simp [get_group_for_user, hm, hv, strTruthy, AUDIT] at hmode ⊢
  simp [hmode]

/-- Witness for the amended claim C1 at a concrete course with both the
audit and the verified modes. -/
theorem c1_witness :
    get_group_for_user ⟨false, false, none⟩ true
      [⟨"audit", none, "0"⟩, ⟨"verified", some "test-sku", "100.00"⟩] (some AUDIT) true
      = (some LIMITED_ACCESS, []) :=
  c1_audit_gets_limited_access ⟨false, false, none⟩
    [⟨"audit", none, "0"⟩, ⟨"verified", some "test-sku", "100.00"⟩]
    rfl (by decide) (by decide)

/-- Claim C2: with no masquerade, the flag enabled and a verified mode
present, an active enrollment whose nonempty mode slug resolves to no
known course mode makes get_group_for_user log one error and fail open to
FULL_ACCESS. -/
theorem c2_unknown_mode_fails_open (masq : MasqueradeState) (modes : List CourseMode)
    (slug : String)
    (hm : masq.course_masquerade = false)
    (hv : has_verified_mode modes = true)
    (hs : slug ≠ "")
    (hu : mode_for_course slug modes = none) :
    get_group_for_user masq true modes (some slug) true
      = (some FULL_ACCESS, [LogLevel.error]) := by
  simp [get_group_for_user, hm, hv, strTruthy, hs, hu]

/-- Witness for claim C2: an active honor enrollment in a course offering
only the verified mode. -/
theorem c2_witness :
    get_group_for_user ⟨false, false, none⟩ true
      [⟨"verified", some "test-sku", "100.00"⟩] (some "honor") true
      = (some FULL_ACCESS, [LogLevel.error]) :=
  c2_unknown_mode_fails_open ⟨false, false, none⟩
    [⟨"verified", some "test-sku", "100.00"⟩] "honor"
    rfl (by decide) (by decide) (by decide)

/-- Counterexample to claim C4 as stated: in a course with no verified
mode, a user masquerading as a generic member of the limited access group
receives LIMITED_ACCESS, not FULL_ACCESS. -/
theorem c4_counterexample :
    (get_group_for_user ⟨true, false, some LIMITED_ACCESS⟩ true [] (some "audit") true).1
      = some LIMITED_ACCESS ∧ some LIMITED_ACCESS ≠ some FULL_ACCESS := by
  decide

/-- Claim C4 (amended): provided the user is not masquerading as a generic
group member, a course with no verified mode yields FULL_ACCESS for every
flag value and every enrollment state, with no log entry. -/
theorem c4_no_verified_mode_full_access (masq : MasqueradeState) (flag : Bool)
    (modes : List CourseMode) (mode_slug : Option String) (is_active : Bool)
    (hm : masq.course_masquerade = false ∨ masq.as_specific_student = true)
    (hv : has_verified_mode modes = false) :
    get_group_for_user masq flag modes mode_slug is_active = (some FULL_ACCESS, []) := by
  rcases hm with hm | hm <;> cases flag <;> simp [get_group_for_user, hm, hv]

/-- Witness for the amended claim C4: a user masquerading as a specific
student, actively enrolled as verified, in a course with no modes. -/
theorem c4_witness :
    get_group_for_user ⟨true, true, some LIMITED_ACCESS⟩ true [] (some "verified") true
      = (some FULL_ACCESS, []) :=
  c4_no_verified_mode_full_access ⟨true, true, some LIMITED_ACCESS⟩ true [] (some "verified") true
    (Or.inr rfl) rfl

/-- Claim C8: with a gating flag enabled and the scheme registered, a
course whose partition list already uses the reserved id 51 makes
create_content_gating_partition return none and log exactly one warning. -/
theorem c8_partition_id_collision (studio_flag : Bool)
    (partitions : List CoursePartitionInfo) (course_id : String)
    (hid : (partitions.map (fun p => p.id)).contains CONTENT_GATING_PARTITION_ID = true) :
    create_content_gating_partition true studio_flag true partitions course_id
      = (none, [LogLevel.warning]) := by
  have hmem : CONTENT_GATING_PARTITION_ID ∈ partitions.map (fun p => p.id) := by
    simpa using hid
  obtain ⟨p, hp, hpid⟩ := List.mem_map.mp hmem
  simp [create_content_gating_partition]
  exact ⟨p, hp, hpid⟩

/-- Witness for claim C8 at a concrete colliding partition list. -/
theorem c8_witness :
    create_content_gating_partition true false true [⟨51, "Other Partition"⟩] "course-v1:a+b+c"
      = (none, [LogLevel.warning]) :=
  c8_partition_id_collision false [⟨51, "Other Partition"⟩] "course-v1:a+b+c" (by decide)

/-- Counterexample to claim C3 as stated: with the global gating flag
enabled, a call supplying both an enrollment and a user returns ok true
through the flag short circuit instead of raising ValueError. -/
theorem c3_counterexample :
    isValueError (enabled_for_enrollment true (some ⟨0, 0⟩) (some 0) none
      (fun _ _ => none) (fun _ => ⟨none, none⟩) 0) = false :=
  rfl

/-- Claim C3 (amended): when the global gating flag is disabled, supplying
both an enrollment and a user or course key, or supplying neither an
enrollment nor a complete user and course key pair, makes
enabled_for_enrollment raise ValueError rather than return a boolean. -/
theorem c3_invalid_arguments_raise (enrollment : Option CourseEnrollment)
    (user course_key : Option Nat)
    (get_enrollment : Nat → Nat → Option CourseEnrollment)
    (current_config : Nat → CourseDurationLimitConfig) (today : Int)
    (h : (enrollment.isSome = true ∧ (user.isSome = true ∨ course_key.isSome = true)) ∨
         (enrollment = none ∧ (user = none ∨ course_key = none))) :
    isValueError (enabled_for_enrollment false enrollment user course_key
      get_enrollment current_config today) = true := by
  rcases h with ⟨h1, h2 | h2⟩ | ⟨h1, h2 | h2⟩ <;>
    simp [enabled_for_enrollment, isValueError, h1, h2]

/-- Witness for the amended claim C3: flag off, both an enrollment and a
user supplied, the call raises. -/
theorem c3_witness :
    isValueError (enabled_for_enrollment false (some ⟨0, 0⟩) (some 0) none
      (fun _ _ => none) (fun _ => ⟨none, none⟩) 0) = true :=
  c3_invalid_arguments_raise (some ⟨0, 0⟩) (some 0) none
    (fun _ _ => none) (fun _ => ⟨none, none⟩) 0 (Or.inl ⟨rfl, Or.inl rfl⟩)

/-- Counterexample to claim C7 as stated: at the scenario of the claim,
the fragment is produced but its checkout link context value is the null
value returned by the fallthrough of the source helper, which is not the
empty string. -/
theorem c7_counterexample :
    access_denied_fragment [⟨"verified", some "test-sku", "100.00"⟩] (some "audit")
        true false none false
      = some ⟨false, none, "100.00"⟩ ∧ (none : Option String) ≠ some "" := by
  decide

/-- Claim C7 (amended): with a verified mode present, an active audit
enrollment and the commerce checkout service disabled for the user,
access_denied_fragment returns a fragment whose checkout link context
value is the null value, rendered empty, and whose min price is the
stringified minimum price of the verified mode. -/
theorem c7_disabled_checkout_fragment (modes : List CourseMode) (verified_mode : CourseMode)
    (checkout_page_url : Option String) (mobile : Bool)
    (hv : mode_for_course VERIFIED modes = some verified_mode) :
    access_denied_fragment modes (some AUDIT) true false checkout_page_url mobile
      = some ⟨mobile, none, verified_mode.min_price⟩ := by
  simp [access_denied_fragment, hv, is_audit_enrollment, get_checkout_link]

/-- Witness for the amended claim C7 at the 100 dollar verified mode of
the scenario, where the stringified minimum price is 100.00. -/
theorem c7_witness :
    access_denied_fragment [⟨"verified", some "test-sku", "100.00"⟩] (some AUDIT)
        true false (some "http://checkout") true
      = some ⟨true, none, "100.00"⟩ :=
  c7_disabled_checkout_fragment [⟨"verified", some "test-sku", "100.00"⟩]
    ⟨"verified", some "test-sku", "100.00"⟩ (some "http://checkout") true (by decide)
